import Mathlib

/-!
Verification of the PhotoPay backend purchase-confirmation core.

Shallow embedding of:
  * `backend/services/solana_service.py` — `lamports_to_sol`, `verify_transaction`;
  * `backend/models.py`                  — `TransactionStatus`, `Listing`, `Purchase`;
  * `backend/main.py`                    — `initiate_purchase`, `confirm_purchase`;
  * `backend/utils/helper.py`            — `is_valid_solana_address`.

Amounts (SOL) are modelled as exact rationals in the relational state and in
the state-machine claims; the Python source computes on IEEE doubles, and the
exact-rational idealization of the verifier's amount test agrees with the
float semantics except within one part in `2^52` of the `1e-6` epsilon
boundary.  The claim about that boundary itself is settled against a
bit-exact binary64 model (`Dbl`, `divDbl`, `subDbl`, `ltDbl` below) of the
very comparison the source executes.  Timestamps are opaque naturals.  The
external ledger is modelled by the answer the RPC node gives for one
signature (`FetchResult`): a fetched transaction record, "not found", or a
transport failure / timeout (which in the source surfaces as an exception
inside `verify_transaction`'s try block).
-/

namespace PhotoPay

/-! ## Ledger model (`solana_service.py`) -/

/-- A parsed system-program transfer instruction: `parsed['info']` with
`source`, `destination` and `lamports`. -/
structure TransferInfo where
  source : String
  destination : String
  lamports : Nat
deriving DecidableEq

/-- An instruction of the fetched transaction.  The source only inspects
instructions that have a `parsed` attribute with `parsed['type'] == 'transfer'`;
everything else (unparsed or non-transfer) is skipped. -/
inductive Instr where
  | transfer (info : TransferInfo)
  | other
deriving DecidableEq

/-- The fetched transaction record: `meta.err` and the instruction list of the
transaction message. -/
structure TxRecord where
  err : Option String
  instructions : List Instr
deriving DecidableEq

/-- Outcome of `client.get_transaction(sig)`:
`found tx` — `response.value` is the record;
`notFound` — `response.value is None`;
`timeout` — the RPC call raised (timeout / transport failure / malformed
signature), which the source catches with its blanket `except`. -/
inductive FetchResult where
  | found (tx : TxRecord)
  | notFound
  | timeout
deriving DecidableEq

/-- `lamports / 1_000_000_000` (`SolanaService.lamports_to_sol`). -/
def lamports_to_sol (lamports : Nat) : ℚ :=
  (lamports : ℚ) / 1000000000

/-- The literal `0.000001` used in the amount comparison of
`verify_transaction`. -/
def amountEpsilon : ℚ := 1 / 1000000

/-- The amount test `abs(amount_sol - expected_amount_sol) < 0.000001` of
`verify_transaction`, with `amount_sol = lamports / 10^9`, idealized to exact
rationals and written in cross-multiplied integer form so that it evaluates
by kernel reduction:
`|lamports/10^9 - num/den| < 1/10^6  ↔  |lamports·den - 10^9·num| < 1000·den`.
`lamportsWithinEps_iff` below proves this form equal to the rational
statement.  The source evaluates the comparison on IEEE doubles; the exact
test here agrees with the float evaluation except within one part in `2^52`
of the epsilon boundary (every amount instantiated through this definition in
this file is exactly representable and far from that boundary).  The boundary
itself is treated by the bit-exact binary64 model (`Dbl` below). -/
def lamportsWithinEps (lamports : Nat) (expected : ℚ) : Bool :=
  decide (((lamports : Int) * (expected.den : Int)
            - 1000000000 * expected.num).natAbs < 1000 * expected.den)

/-- One iteration of the instruction scan in `verify_transaction`: a parsed
transfer whose `source`, `destination` match and whose amount is within
`0.000001` SOL of the expected amount. -/
def instrMatches (expected_sender expected_receiver : String)
    (expected_amount_sol : ℚ) : Instr → Bool
  | Instr.transfer info =>
      info.source == expected_sender &&
      info.destination == expected_receiver &&
      lamportsWithinEps info.lamports expected_amount_sol
  | Instr.other => false

/-- `SolanaService.verify_transaction`.  Returns `False` when the record is
absent (`response.value is None`), when the RPC call raised (the blanket
`except` returns `False`), when `meta.err` is set, or when no instruction
matches; returns `True` on the first matching transfer. -/
def verify_transaction (fetch : FetchResult) (expected_sender expected_receiver : String)
    (expected_amount_sol : ℚ) : Bool :=
  match fetch with
  | FetchResult.timeout => false
  | FetchResult.notFound => false
  | FetchResult.found tx =>
      if tx.err.isSome then
        false
      else
        tx.instructions.any (instrMatches expected_sender expected_receiver expected_amount_sol)

/-! ## Bit-exact IEEE binary64 model of the amount comparison

The source evaluates `abs(lamports / 1_000_000_000 - expected_amount_sol) <
0.000001` on Python floats (IEEE binary64).  A double is represented below by
its exact value `m · 2^e` (`|m| < 2^53` when produced by rounding); the
arithmetic produces the round-to-nearest, ties-to-even rounding of the exact
result, which is IEEE semantics at the magnitudes involved here (every value
lies far from overflow and subnormal territory).  This model decides the
epsilon-boundary claim; the rational idealization `lamportsWithinEps` above is
used everywhere else, where the two agree. -/

/-- Number of binary digits of `n` (0 for 0).  The fuel only bounds the
recursion depth — 4096 covers every integer below `2^4096`, far beyond any
value arising here — and lets the definition evaluate by kernel reduction. -/
def nbitsAux : Nat → Nat → Nat
  | 0, _ => 0
  | fuel + 1, n => if n = 0 then 0 else nbitsAux fuel (n / 2) + 1

/-- Number of binary digits of `n`. -/
def nbits (n : Nat) : Nat := nbitsAux 4096 n

/-- A binary64 value, represented exactly as `m · 2^e`. -/
structure Dbl where
  m : Int
  e : Int
deriving DecidableEq

/-- Round the exact value `M · 2^E` to 53 significant bits, round-to-nearest,
ties to even: the binary64 rounding of an exact binary intermediate result. -/
def roundMantissa (M E : Int) : Int × Int :=
  let s := M.natAbs
  let n := nbits s
  if n ≤ 53 then (M, E)
  else
    let drop := n - 53
    let p := 2 ^ drop
    let keep := s / p
    let rem := s % p
    let half := p / 2
    let keepR := if half < rem ∨ (rem = half ∧ keep % 2 = 1) then keep + 1 else keep
    (if M < 0 then -(keepR : Int) else (keepR : Int), E + drop)

/-- The binary64 float nearest to `a / b` (round-to-nearest, ties to even):
the result of the Python division `a / b` at these magnitudes.  The quotient
is computed to 55+ bits and rounded with a sticky remainder. -/
def divDbl (a b : Nat) : Dbl :=
  if a = 0 ∨ b = 0 then { m := 0, e := 0 }
  else
    let shift := 55 + nbits b
    let t := a * 2 ^ shift
    let q := t / b
    let r := t % b
    let n := nbits q
    let drop := n - 53
    let p := 2 ^ drop
    let keep := q / p
    let low := q % p
    let half := p / 2
    let tail := low * b + r
    let hb := half * b
    let keepR := if hb < tail ∨ (tail = hb ∧ keep % 2 = 1) then keep + 1 else keep
    { m := (keepR : Int), e := (drop : Int) - (shift : Int) }

/-- binary64 subtraction `x - y`: the exact difference (a binary rational)
rounded back to 53 bits. -/
def subDbl (x y : Dbl) : Dbl :=
  let E := min x.e y.e
  let M := x.m * 2 ^ (x.e - E).toNat - y.m * 2 ^ (y.e - E).toNat
  let me := roundMantissa M E
  { m := me.1, e := me.2 }

/-- binary64 absolute value (exact). -/
def absDbl (x : Dbl) : Dbl := { m := |x.m|, e := x.e }

/-- binary64 `<` — an exact comparison of the represented values. -/
def ltDbl (x y : Dbl) : Bool :=
  let E := min x.e y.e
  decide (x.m * 2 ^ (x.e - E).toNat < y.m * 2 ^ (y.e - E).toNat)

/-- The exact rational value of a binary64 number (for statements). -/
def Dbl.toRat (x : Dbl) : ℚ :=
  if 0 ≤ x.e then (x.m : ℚ) * ((2 ^ x.e.toNat : ℕ) : ℚ)
  else (x.m : ℚ) / ((2 ^ (-x.e).toNat : ℕ) : ℚ)

/-- The amount test of `verify_transaction` in bit-exact binary64 semantics:
`abs(lamports / 1_000_000_000 - expected) < 0.000001` exactly as Python
executes it (the divisor `1_000_000_000` and the literal `0.000001` round to
their nearest doubles; `expected` is the stored double price). -/
def floatAmountWithinEps (lamports : Nat) (expected : Dbl) : Bool :=
  ltDbl (absDbl (subDbl (divDbl lamports 1000000000) expected)) (divDbl 1 1000000)

/-- `instrMatches` with the amount test in binary64 semantics. -/
def instrMatchesFloat (expected_sender expected_receiver : String)
    (expected : Dbl) : Instr → Bool
  | Instr.transfer info =>
      info.source == expected_sender &&
      info.destination == expected_receiver &&
      floatAmountWithinEps info.lamports expected
  | Instr.other => false

/-- `verify_transaction` with the amount test in binary64 semantics — the
same source lines as `verify_transaction`, with the float comparison kept
bit-exact instead of idealized to exact rationals. -/
def verify_transaction_float (fetch : FetchResult)
    (expected_sender expected_receiver : String) (expected : Dbl) : Bool :=
  match fetch with
  | FetchResult.timeout => false
  | FetchResult.notFound => false
  | FetchResult.found tx =>
      if tx.err.isSome then
        false
      else
        tx.instructions.any (instrMatchesFloat expected_sender expected_receiver expected)

/-! ## Data model (`models.py`) -/

/-- `TransactionStatus` enum. -/
inductive TransactionStatus where
  | pending
  | confirmed
  | failed
deriving DecidableEq

/-- The fields of `Listing` that the purchase flow reads. -/
structure Listing where
  id : String
  price_sol : ℚ
  creator_wallet : String
  is_active : Bool
deriving DecidableEq

/-- The `Purchase` row.  `id` is an opaque identifier (uuid in the source);
`purchased_at` is the creation timestamp default, `confirmed_at` is nullable. -/
structure Purchase where
  id : Nat
  listing_id : String
  buyer_wallet : String
  transaction_signature : String
  amount_sol : ℚ
  status : TransactionStatus
  purchased_at : Nat
  confirmed_at : Option Nat
deriving DecidableEq

/-- The relational state the purchase endpoints touch: listings, user wallet
addresses, and purchase rows. -/
structure DB where
  listings : List Listing
  users : List String
  purchases : List Purchase
deriving DecidableEq

/-- `db.query(Listing).filter(Listing.id == lid).first()` — the lookup in
`confirm_purchase`, which does NOT filter on `is_active`. -/
def findListing (db : DB) (lid : String) : Option Listing :=
  db.listings.find? (fun l => l.id == lid)

/-- `db.query(Listing).filter(Listing.id == lid, Listing.is_active == True).first()`
— the lookup in `initiate_purchase`. -/
def findActiveListing (db : DB) (lid : String) : Option Listing :=
  db.listings.find? (fun l => l.id == lid && l.is_active)

/-- `db.query(Purchase).filter(Purchase.transaction_signature == sig).first()`. -/
def findPurchaseBySignature (db : DB) (sig : String) : Option Purchase :=
  db.purchases.find? (fun p => p.transaction_signature == sig)

/-- `db.query(Purchase).filter(listing_id == lid, buyer_wallet == buyer,
status == CONFIRMED).first()` is non-empty — the "already owned" test of
`initiate_purchase`. -/
def existsConfirmedPurchase (db : DB) (lid buyer : String) : Bool :=
  db.purchases.any (fun p =>
    p.listing_id == lid && p.buyer_wallet == buyer &&
    p.status == TransactionStatus.confirmed)

/-- Number of CONFIRMED purchases stored for a (listing, buyer) pair. -/
def countConfirmedFor (db : DB) (lid buyer : String) : Nat :=
  (db.purchases.filter (fun p =>
    p.listing_id == lid && p.buyer_wallet == buyer &&
    p.status == TransactionStatus.confirmed)).length

/-- In-place mutation of the row found by signature (`existing.status = ...;
db.commit()`): rewrite the first row carrying the signature, leave the rest. -/
def updateBySig (sig : String) (f : Purchase → Purchase) : List Purchase → List Purchase
  | [] => []
  | p :: ps =>
      if p.transaction_signature == sig then f p :: ps
      else p :: updateBySig sig f ps

/-! ## Wallet validation (`helper.py`) -/

/-- Membership in the base58 alphabet `[1-9A-HJ-NP-Za-km-z]`. -/
def isBase58Char (c : Char) : Bool :=
  (Char.toNat '1' ≤ c.toNat && c.toNat ≤ Char.toNat '9') ||
  (Char.toNat 'A' ≤ c.toNat && c.toNat ≤ Char.toNat 'H') ||
  (Char.toNat 'J' ≤ c.toNat && c.toNat ≤ Char.toNat 'N') ||
  (Char.toNat 'P' ≤ c.toNat && c.toNat ≤ Char.toNat 'Z') ||
  (Char.toNat 'a' ≤ c.toNat && c.toNat ≤ Char.toNat 'k') ||
  (Char.toNat 'm' ≤ c.toNat && c.toNat ≤ Char.toNat 'z')

/-- `is_valid_solana_address`: full match of `^[1-9A-HJ-NP-Za-km-z]{32,44}$`. -/
def is_valid_solana_address (address : String) : Bool :=
  32 ≤ address.length && address.length ≤ 44 && address.toList.all isBase58Char

/-! ## `POST /confirm` — `confirm_purchase` (`main.py`) -/

/-- The `PurchaseConfirm` request schema. -/
structure PurchaseConfirm where
  listing_id : String
  buyer_wallet : String
  transaction_signature : String
deriving DecidableEq

/-- The HTTP outcome of `confirm_purchase`:
`ok p` — a `PurchaseResponse` for `p`;
`listingNotFound` — the 404 raised when the listing lookup is empty;
`verificationFailed` — the 400 raised when `verify_transaction` returns
`False`. -/
inductive ConfirmResult where
  | ok (p : Purchase)
  | listingNotFound
  | verificationFailed
deriving DecidableEq

/-- Result, post-state, and whether the ledger verifier was invoked on the way
(the call to `solana_service.verify_transaction`). -/
structure ConfirmOutcome where
  result : ConfirmResult
  db : DB
  verifierCalled : Bool
deriving DecidableEq

/-- The row mutation `existing.status = CONFIRMED; existing.confirmed_at =
datetime.utcnow()` of `confirm_purchase`. -/
def setConfirmedAt (now : Nat) (q : Purchase) : Purchase :=
  { q with status := TransactionStatus.confirmed, confirmed_at := some now }

/-- The verification tail of `confirm_purchase`, reached when no CONFIRMED row
holds the signature: call `verify_transaction` with the buyer wallet from the
request and the creator wallet and price of the listing **as currently
stored**; on `False` raise 400; on `True` either flip the existing row to
CONFIRMED (setting `confirmed_at = utcnow()`) or insert a fresh CONFIRMED row.

The `except Exception` fallback of the source (insert a PENDING row, raise
500) is reachable only through database-commit failures: `verify_transaction`
catches every exception internally and returns `False`, so no ledger error
ever escapes into that branch.  Database commits are assumed to succeed here,
so the branch is dead in the model. -/
def confirmVerify (db : DB) (req : PurchaseConfirm) (fetch : FetchResult) (now : Nat)
    (listing : Listing) (existing : Option Purchase) : ConfirmOutcome :=
  let is_valid := verify_transaction fetch req.buyer_wallet listing.creator_wallet
    listing.price_sol
  if !is_valid then
    { result := ConfirmResult.verificationFailed, db := db, verifierCalled := true }
  else
    match existing with
    | some p =>
        { result := ConfirmResult.ok (setConfirmedAt now p)
          db := { db with
                  purchases := updateBySig req.transaction_signature (setConfirmedAt now)
                    db.purchases }
          verifierCalled := true }
    | none =>
        let newPurchase : Purchase :=
          { id := db.purchases.length
            listing_id := req.listing_id
            buyer_wallet := req.buyer_wallet
            transaction_signature := req.transaction_signature
            amount_sol := listing.price_sol
            status := TransactionStatus.confirmed
            purchased_at := now
            confirmed_at := some now }
        { result := ConfirmResult.ok newPurchase
          db := { db with purchases := db.purchases ++ [newPurchase] }
          verifierCalled := true }

/-- `confirm_purchase(confirm_data, db)`.  Mirrors the source line by line:
1. look up the listing by id (no `is_active` filter); 404 when absent;
2. look up an existing purchase by signature; if its status is CONFIRMED,
   return it unchanged (no verifier call); a PENDING row falls through
   (`pass`), and a FAILED row falls through as well — no branch of the
   `if`/`elif` chain handles it;
3. run the verification tail.
`fetch` is the ledger's answer for the request's signature, `now` the value of
`datetime.utcnow()` during the call. -/
def confirm_purchase (db : DB) (req : PurchaseConfirm) (fetch : FetchResult)
    (now : Nat) : ConfirmOutcome :=
  match findListing db req.listing_id with
  | none => { result := ConfirmResult.listingNotFound, db := db, verifierCalled := false }
  | some listing =>
      match findPurchaseBySignature db req.transaction_signature with
      | some p =>
          if p.status = TransactionStatus.confirmed then
            { result := ConfirmResult.ok p, db := db, verifierCalled := false }
          else
            confirmVerify db req fetch now listing (some p)
      | none => confirmVerify db req fetch now listing none

/-! ## `POST /` — `initiate_purchase` (`main.py`) -/

/-- The `PurchaseCreate` request schema. -/
structure PurchaseCreate where
  listing_id : String
  buyer_wallet : String
deriving DecidableEq

/-- The HTTP outcome of `initiate_purchase`:
`ok receiver amount` — the transfer parameters handed to the wallet for
signing (`to_wallet = listing.creator_wallet`, `amount_sol =
listing.price_sol`);
`invalidWallet` — 400 on a malformed buyer wallet;
`listingNotFound` — 404 when no active listing matches;
`alreadyOwned` — 409 when a CONFIRMED purchase exists for (listing, buyer);
`creationFailed` — 500 when building the transfer transaction raised. -/
inductive InitResult where
  | ok (receiver : String) (amount_sol : ℚ)
  | invalidWallet
  | listingNotFound
  | alreadyOwned
  | creationFailed
deriving DecidableEq

/-- Result, post-state, and whether the ledger was contacted
(`create_transfer_transaction` fetches the latest blockhash). -/
structure InitOutcome where
  result : InitResult
  db : DB
  ledgerCalled : Bool
deriving DecidableEq

/-- `initiate_purchase(purchase_data, db)`:
1. validate the buyer wallet;
2. look up the listing filtered on `is_active == True`; 404 when absent;
3. reject 409 when a CONFIRMED purchase exists for (listing, buyer) — before
   any ledger call;
4. insert the buyer `User` row when missing;
5. fetch a recent blockhash and return the transfer parameters (receiver =
   creator wallet, amount = listing price).  `blockhash = none` models the
   RPC call raising, which the endpoint converts to a 500.
The optional gateway enrichment only decorates the returned transaction dict
with a priority fee and never alters receiver or amount, so it is omitted. -/
def initiate_purchase (db : DB) (req : PurchaseCreate)
    (blockhash : Option (String × Nat)) : InitOutcome :=
  if !is_valid_solana_address req.buyer_wallet then
    { result := InitResult.invalidWallet, db := db, ledgerCalled := false }
  else
    match findActiveListing db req.listing_id with
    | none => { result := InitResult.listingNotFound, db := db, ledgerCalled := false }
    | some listing =>
        if existsConfirmedPurchase db req.listing_id req.buyer_wallet then
          { result := InitResult.alreadyOwned, db := db, ledgerCalled := false }
        else
          let db1 :=
            if db.users.contains req.buyer_wallet then db
            else { db with users := db.users ++ [req.buyer_wallet] }
          match blockhash with
          | none => { result := InitResult.creationFailed, db := db1, ledgerCalled := true }
          | some _ =>
              { result := InitResult.ok listing.creator_wallet listing.price_sol
                db := db1
                ledgerCalled := true }

/-! ## Reachable database states

The purchase rows are mutated by `confirm_purchase` alone; `initiate_purchase`
only inserts `User` rows, and every other endpoint either reads purchases or
touches listings/users.  The `collab` step over-approximates all of those:
it replaces listings and users arbitrarily while keeping the purchase rows. -/

/-- Database states reachable from an empty store through the endpoints. -/
inductive Reachable : DB → Prop where
  | empty : Reachable { listings := [], users := [], purchases := [] }
  | confirmStep {db : DB} (req : PurchaseConfirm) (fetch : FetchResult) (now : Nat) :
      Reachable db → Reachable (confirm_purchase db req fetch now).db
  | initiateStep {db : DB} (req : PurchaseCreate) (bh : Option (String × Nat)) :
      Reachable db → Reachable (initiate_purchase db req bh).db
  | collab {db : DB} (ls : List Listing) (us : List String) :
      Reachable db → Reachable { listings := ls, users := us, purchases := db.purchases }

/-- Per-row invariant: `confirmed_at` is non-null iff the status is CONFIRMED. -/
def purchaseInv (p : Purchase) : Prop :=
  p.confirmed_at.isSome ↔ p.status = TransactionStatus.confirmed

/-- Inductive invariant carried through all reachable states: every row
satisfies `purchaseInv`, and no two rows share a transaction signature (the
storage layer enforces a unique constraint on `transaction_signature`). -/
def dbWF (db : DB) : Prop :=
  (∀ p ∈ db.purchases, purchaseInv p) ∧
  (db.purchases.map (fun p => p.transaction_signature)).Nodup

/-! ## Concrete fixtures used by the counterexamples and witnesses -/

/-- The price 1.5 SOL of the worked example in the spec. -/
def price15 : ℚ := mkRat 3 2

/-- An active listing sold by creator wallet `"C"`. -/
def listing1 : Listing :=
  { id := "L1", price_sol := price15, creator_wallet := "C", is_active := true }

/-- A CONFIRMED purchase of `listing1` by buyer `"B"` under signature `"s1"`. -/
def purchase1 : Purchase :=
  { id := 0, listing_id := "L1", buyer_wallet := "B", transaction_signature := "s1",
    amount_sol := price15, status := TransactionStatus.confirmed, purchased_at := 0,
    confirmed_at := some 0 }

/-- A PENDING purchase row under signature `"s1"`. -/
def pendingPurchase1 : Purchase :=
  { purchase1 with status := TransactionStatus.pending, confirmed_at := none }

/-- A FAILED purchase row under signature `"s1"`. -/
def failedPurchase1 : Purchase :=
  { purchase1 with status := TransactionStatus.failed, confirmed_at := none }

/-- Store in which buyer `"B"` already owns `listing1` (CONFIRMED). -/
def dbOwned : DB := { listings := [listing1], users := ["B", "C"], purchases := [purchase1] }

/-- Store with `listing1` and no purchase rows. -/
def dbNoPurchase : DB := { listings := [listing1], users := ["B", "C"], purchases := [] }

/-- Store in which signature `"s1"` has a PENDING row. -/
def dbPending : DB :=
  { listings := [listing1], users := ["B", "C"], purchases := [pendingPurchase1] }

/-- Store in which signature `"s1"` has a FAILED row. -/
def dbFailed : DB :=
  { listings := [listing1], users := ["B", "C"], purchases := [failedPurchase1] }

/-- An on-chain transaction carrying a transfer of exactly 1.5 SOL from `"B"`
to `"C"`, with no execution error. -/
def txOK : TxRecord :=
  { err := none,
    instructions := [Instr.transfer { source := "B", destination := "C", lamports := 1500000000 }] }

/-- The same transfer but on a transaction whose execution-error field is set. -/
def txErr : TxRecord :=
  { err := some "InstructionError",
    instructions := [Instr.transfer { source := "B", destination := "C", lamports := 1500000000 }] }

/-- A transfer of 1.500001 SOL from `"B"` to `"C"`: it differs from the
expected 1.5 SOL by exactly `1e-6`. -/
def txOffByEps : TxRecord :=
  { err := none,
    instructions := [Instr.transfer { source := "B", destination := "C", lamports := 1500001000 }] }

/-- A transfer of 1.50001 SOL from `"B"` to `"C"`: it differs from the
expected 1.5 SOL by exactly `1e-5`. -/
def txOffBy1e5 : TxRecord :=
  { err := none,
    instructions := [Instr.transfer { source := "B", destination := "C", lamports := 1500010000 }] }

/-- An error-free transaction whose single instruction transfers `lam`
lamports from `s` to `r`. -/
def singleTransferTx (s r : String) (lam : Nat) : TxRecord :=
  { err := none,
    instructions := [Instr.transfer { source := s, destination := r, lamports := lam }] }

/-- A second active listing, used to show that the fast path ignores the
request's `listing_id`. -/
def listing2 : Listing :=
  { id := "L2", price_sol := price15, creator_wallet := "C", is_active := true }

/-- Store with two listings in which `"B"` owns `listing1` under `"s1"`. -/
def dbTwoListings : DB :=
  { listings := [listing1, listing2], users := ["B", "C"], purchases := [purchase1] }

/-- The recorded amount carried by a confirmation response, if any. -/
def resultAmount : ConfirmResult → Option ℚ
  | ConfirmResult.ok p => some p.amount_sol
  | ConfirmResult.listingNotFound => none
  | ConfirmResult.verificationFailed => none

/-- A syntactically valid base58 buyer wallet (32 characters). -/
def validBuyer : String := "AAAAAAAAAAAAAAAAAAAAAAAAAAAAAAAA"

/-- Listing used by the initiate-then-confirm scenario, priced at 2 SOL. -/
def listing6 : Listing :=
  { id := "L6", price_sol := mkRat 2 1, creator_wallet := "C", is_active := true }

/-- Store at initiation time: `listing6` costs 2 SOL. -/
def dbInit : DB := { listings := [listing6], users := [], purchases := [] }

/-- Store at confirmation time: the price of `listing6` was changed to 3 SOL
between initiation and confirmation. -/
def dbChanged : DB :=
  { listings := [{ listing6 with price_sol := mkRat 3 1 }], users := [validBuyer],
    purchases := [] }

/-- A transfer of 3 SOL from `validBuyer` to `"C"` (the changed price). -/
def txPays3 : TxRecord :=
  { err := none,
    instructions := [Instr.transfer { source := validBuyer, destination := "C", lamports := 3000000000 }] }

/-- A transfer of 2 SOL from `validBuyer` to `"C"` (the initiation-time price). -/
def txPays2 : TxRecord :=
  { err := none,
    instructions := [Instr.transfer { source := validBuyer, destination := "C", lamports := 2000000000 }] }

/-! ## Helper lemmas -/

/-- The executable integer form of the amount test agrees with the rational
statement `|lamports/10^9 - expected| < 1e-6` from the source. -/
theorem lamportsWithinEps_iff (l : Nat) (q : ℚ) :
    lamportsWithinEps l q = true ↔ |lamports_to_sol l - q| < amountEpsilon := by
  unfold lamportsWithinEps lamports_to_sol amountEpsilon
  rw [decide_eq_true_iff]
  have hden : (0 : ℚ) < (q.den : ℚ) := by exact_mod_cast q.pos
  have hD : (0 : ℚ) < 1000000000 * (q.den : ℚ) := by
    have h9 : (0 : ℚ) < 1000000000 := by norm_num
    exact mul_pos h9 hden
  have hnd : (q.num : ℚ) / (q.den : ℚ) = q := Rat.num_div_den q
  have key : (l : ℚ) / 1000000000 - q
      = (((l : Int) * (q.den : Int) - 1000000000 * q.num : ℤ) : ℚ)
        / (1000000000 * (q.den : ℚ)) := by
    conv_lhs => rw [← hnd]
    rw [div_sub_div _ _ (by norm_num) (ne_of_gt hden)]
    push_cast
    ring_nf
  rw [key, abs_div, abs_of_pos hD, div_lt_iff₀ hD]
  rw [show (1 : ℚ) / 1000000 * (1000000000 * (q.den : ℚ)) = ((1000 * q.den : ℕ) : ℚ) by
    push_cast; ring]
  rw [← Int.cast_abs, Int.abs_eq_natAbs]
  constructor
  · intro h
    exact_mod_cast h
  · intro h
    exact_mod_cast h

/-- `updateBySig` does not change the number of rows. -/
theorem updateBySig_length (sig : String) (f : Purchase → Purchase) :
    ∀ ps : List Purchase, (updateBySig sig f ps).length = ps.length := by
  intro ps
  induction ps with
  | nil => rfl
  | cons p ps ih =>
      unfold updateBySig
      by_cases h : (p.transaction_signature == sig) = true
      · simp [h]
      · simp only [Bool.not_eq_true] at h
        simp [h, ih]

/-- When `f` keeps the signature, `updateBySig` keeps the signature column. -/
theorem updateBySig_map_sig (sig : String) (f : Purchase → Purchase)
    (hf : ∀ q, (f q).transaction_signature = q.transaction_signature) :
    ∀ ps : List Purchase,
      (updateBySig sig f ps).map (fun p => p.transaction_signature)
        = ps.map (fun p => p.transaction_signature) := by
  intro ps
  induction ps with
  | nil => rfl
  | cons p ps ih =>
      unfold updateBySig
      by_cases h : (p.transaction_signature == sig) = true
      · simp [h, hf]
      · simp only [Bool.not_eq_true] at h
        simp [h, ih]

/-- Every row of an update is either an original row or `f` of an original row. -/
theorem mem_updateBySig (sig : String) (f : Purchase → Purchase) :
    ∀ (ps : List Purchase) (p : Purchase), p ∈ updateBySig sig f ps →
      p ∈ ps ∨ ∃ q ∈ ps, p = f q := by
  intro ps
  induction ps with
  | nil => intro p h; exact absurd h (List.not_mem_nil p)
  | cons a ps ih =>
      intro p h
      unfold updateBySig at h
      by_cases ha : (a.transaction_signature == sig) = true
      · rw [if_pos ha] at h
        rcases List.mem_cons.mp h with h1 | h1
        · exact Or.inr ⟨a, List.mem_cons_self a ps, h1⟩
        · exact Or.inl (List.mem_cons_of_mem a h1)
      · rw [if_neg ha] at h
        rcases List.mem_cons.mp h with h1 | h1
        · exact Or.inl (h1 ▸ List.mem_cons_self a ps)
        · rcases ih p h1 with h2 | ⟨q, hq, hfq⟩
          · exact Or.inl (List.mem_cons_of_mem a h2)
          · exact Or.inr ⟨q, List.mem_cons_of_mem a hq, hfq⟩

/-- Rows that do not carry the updated signature survive unchanged. -/
theorem mem_updateBySig_of_sig_ne (sig : String) (f : Purchase → Purchase) :
    ∀ (ps : List Purchase) (p : Purchase), p ∈ ps →
      p.transaction_signature ≠ sig → p ∈ updateBySig sig f ps := by
  intro ps
  induction ps with
  | nil => intro p h; exact absurd h (List.not_mem_nil p)
  | cons a ps ih =>
      intro p h hne
      unfold updateBySig
      rcases List.mem_cons.mp h with h1 | h1
      · subst h1
        have : (p.transaction_signature == sig) = false := by
          simpa using hne
        rw [this]
        simp
      · by_cases ha : (a.transaction_signature == sig) = true
        · rw [if_pos ha]
          exact List.mem_cons_of_mem _ h1
        · rw [if_neg ha]
          exact List.mem_cons_of_mem a (ih p h1 hne)

/-- Unpacking a successful signature lookup. -/
theorem findPurchaseBySignature_some {db : DB} {sig : String} {p : Purchase}
    (h : findPurchaseBySignature db sig = some p) :
    p ∈ db.purchases ∧ p.transaction_signature = sig := by
  unfold findPurchaseBySignature at h
  have h1 := List.find?_some h
  simp only [beq_iff_eq] at h1
  exact ⟨List.mem_of_find?_eq_some h, h1⟩

/-- Unpacking a failed signature lookup. -/
theorem findPurchaseBySignature_none {db : DB} {sig : String}
    (h : findPurchaseBySignature db sig = none) :
    ∀ p ∈ db.purchases, p.transaction_signature ≠ sig := by
  unfold findPurchaseBySignature at h
  intro p hp
  have := List.find?_eq_none.mp h p hp
  simpa using this

/-- The three possible shapes of the purchase table after `confirm_purchase`:
unchanged; one non-CONFIRMED row flipped to CONFIRMED in place; or a fresh
CONFIRMED row appended for a previously unseen signature. -/
theorem confirm_purchases_cases (db : DB) (req : PurchaseConfirm) (fetch : FetchResult)
    (now : Nat) :
    (confirm_purchase db req fetch now).db.purchases = db.purchases ∨
    (∃ p, findPurchaseBySignature db req.transaction_signature = some p ∧
        p.status ≠ TransactionStatus.confirmed ∧
        (confirm_purchase db req fetch now).db.purchases
          = updateBySig req.transaction_signature (setConfirmedAt now) db.purchases) ∨
    (findPurchaseBySignature db req.transaction_signature = none ∧
        ∃ l, (confirm_purchase db req fetch now).db.purchases
          = db.purchases ++
              [{ id := db.purchases.length, listing_id := req.listing_id,
                 buyer_wallet := req.buyer_wallet,
                 transaction_signature := req.transaction_signature,
                 amount_sol := Listing.price_sol l,
                 status := TransactionStatus.confirmed,
                 purchased_at := now, confirmed_at := some now }]) := by
  cases hfl : findListing db req.listing_id with
  | none =>
      left
      simp [confirm_purchase, hfl]
  | some l =>
      cases hfp : findPurchaseBySignature db req.transaction_signature with
      | some p =>
          by_cases hc : p.status = TransactionStatus.confirmed
          · left
            simp [confirm_purchase, hfl, hfp, hc]
          · by_cases hv : verify_transaction fetch req.buyer_wallet l.creator_wallet
                l.price_sol = true
            · right; left
              exact ⟨p, rfl, hc,
                by simp [confirm_purchase, confirmVerify, hfl, hfp, hc, hv]⟩
            · left
              simp only [Bool.not_eq_true] at hv
              simp [confirm_purchase, confirmVerify, hfl, hfp, hc, hv]
      | none =>
          by_cases hv : verify_transaction fetch req.buyer_wallet l.creator_wallet
              l.price_sol = true
          · right; right
            exact ⟨rfl, l,
              by simp [confirm_purchase, confirmVerify, hfl, hfp, hv]⟩
          · left
            simp only [Bool.not_eq_true] at hv
            simp [confirm_purchase, confirmVerify, hfl, hfp, hv]

/-- `confirm_purchase` preserves the inductive invariant. -/
theorem confirm_preserves_dbWF (db : DB) (req : PurchaseConfirm) (fetch : FetchResult)
    (now : Nat) (h : dbWF db) : dbWF (confirm_purchase db req fetch now).db := by
  obtain ⟨hinv, hnd⟩ := h
  rcases confirm_purchases_cases db req fetch now with hcase | ⟨p, hfp, hpc, hcase⟩ |
    ⟨hfp, l, hcase⟩
  · exact ⟨fun p hp => hinv p (hcase ▸ hp), by rw [hcase]; exact hnd⟩
  · constructor
    · intro q hq
      rw [hcase] at hq
      rcases mem_updateBySig _ _ _ q hq with hq1 | ⟨r, _, hr⟩
      · exact hinv q hq1
      · rw [hr]
        exact ⟨fun _ => rfl, fun _ => rfl⟩
    · rw [hcase, updateBySig_map_sig req.transaction_signature (setConfirmedAt now)
        (fun q => rfl) db.purchases]
      exact hnd
  · constructor
    · intro q hq
      rw [hcase] at hq
      rcases List.mem_append.mp hq with hq1 | hq1
      · exact hinv q hq1
      · rw [List.mem_singleton.mp hq1]
        exact ⟨fun _ => rfl, fun _ => rfl⟩
    · rw [hcase, List.map_append]
      have hnotin : req.transaction_signature ∉
          db.purchases.map (fun p => p.transaction_signature) := by
        intro hmem
        rcases List.mem_map.mp hmem with ⟨q, hq, hqs⟩
        exact findPurchaseBySignature_none hfp q hq hqs
      simp [List.nodup_append, hnd]
      intro q hq hqs
      exact hnotin (hqs ▸ List.mem_map_of_mem (fun p => p.transaction_signature) hq)

/-- A CONFIRMED row survives any further `confirm_purchase` call untouched:
the fast path returns before mutating it, and the in-place update only ever
targets a non-CONFIRMED row. -/
theorem confirm_keeps_confirmed (db : DB) (req : PurchaseConfirm) (fetch : FetchResult)
    (now : Nat) (h : dbWF db) :
    ∀ p ∈ db.purchases, p.status = TransactionStatus.confirmed →
      p ∈ (confirm_purchase db req fetch now).db.purchases := by
  obtain ⟨hinv, hnd⟩ := h
  intro p hp hpc
  rcases confirm_purchases_cases db req fetch now with hcase | ⟨q, hfq, hqc, hcase⟩ |
    ⟨hfq, l, hcase⟩
  · rw [hcase]; exact hp
  · rw [hcase]
    apply mem_updateBySig_of_sig_ne _ _ _ p hp
    intro hsig
    obtain ⟨hqmem, hqsig⟩ := findPurchaseBySignature_some hfq
    have hpq : p = q := by
      apply List.inj_on_of_nodup_map hnd hp hqmem
      show p.transaction_signature = q.transaction_signature
      rw [hsig, hqsig]
    rw [hpq] at hpc
    exact hqc hpc
  · rw [hcase]
    exact List.mem_append_left _ hp

/-- `initiate_purchase` never touches the purchase table. -/
theorem initiate_purchases_eq (db : DB) (req : PurchaseCreate)
    (bh : Option (String × Nat)) :
    (initiate_purchase db req bh).db.purchases = db.purchases := by
  unfold initiate_purchase
  by_cases h1 : (!is_valid_solana_address req.buyer_wallet) = true
  · rw [if_pos h1]
  · rw [if_neg h1]
    cases hfl : findActiveListing db req.listing_id with
    | none => rfl
    | some l =>
        by_cases h2 : existsConfirmedPurchase db req.listing_id req.buyer_wallet = true
        · simp [h2]
        · by_cases h3 : req.buyer_wallet ∈ db.users
          · cases bh <;> simp [h2, h3]
          · cases bh <;> simp [h2, h3]

/-- Every reachable state satisfies the inductive invariant. -/
theorem reachable_dbWF (db : DB) (h : Reachable db) : dbWF db := by
  induction h with
  | empty => exact ⟨fun p hp => absurd hp (List.not_mem_nil p), List.nodup_nil⟩
  | confirmStep req fetch now _ ih => exact confirm_preserves_dbWF _ req fetch now ih
  | initiateStep req bh _ ih =>
      unfold dbWF
      rw [initiate_purchases_eq]
      exact ih
  | collab ls us _ ih => exact ih

/-! ## Claims -/

/-- C8: for every fetched transaction record whose execution-error field is
set, verification rejects, regardless of the contents of the instruction
list — even if an instruction matches the expected sender, receiver and
amount. -/
theorem C8_error_field_always_rejects (e : String) (instrs : List Instr)
    (s r : String) (amt : ℚ) :
    verify_transaction (FetchResult.found { err := some e, instructions := instrs })
      s r amt = false := rfl

/-- C9: in every database state reachable through the purchase endpoints,
`confirmed_at` is non-null iff the status is CONFIRMED (the operations
preserve this invariant), and a CONFIRMED row — with the `confirmed_at` it was
given on the transition into CONFIRMED — survives every further
`confirm_purchase` call untouched, so `confirmed_at` is set exactly once. -/
theorem C9_confirmed_at_iff_confirmed (db : DB) (h : Reachable db) :
    (∀ p ∈ db.purchases, p.confirmed_at.isSome ↔ p.status = TransactionStatus.confirmed) ∧
    (∀ (req : PurchaseConfirm) (fetch : FetchResult) (now : Nat),
      ∀ p ∈ db.purchases, p.status = TransactionStatus.confirmed →
        p ∈ (confirm_purchase db req fetch now).db.purchases) := by
  have hwf := reachable_dbWF db h
  refine ⟨hwf.1, ?_⟩
  intro req fetch now p hp hpc
  exact confirm_keeps_confirmed db req fetch now hwf p hp hpc

/-- C9 witness: the invariant instantiated at a concrete reachable state, the
store obtained by confirming the 1.5 SOL purchase of `listing1`. -/
theorem C9_witness :
    (∀ p ∈ (confirm_purchase dbNoPurchase ⟨"L1", "B", "s1"⟩ (FetchResult.found txOK) 3).db.purchases,
        p.confirmed_at.isSome ↔ p.status = TransactionStatus.confirmed) ∧
    (∀ (req : PurchaseConfirm) (fetch : FetchResult) (now : Nat),
      ∀ p ∈ (confirm_purchase dbNoPurchase ⟨"L1", "B", "s1"⟩ (FetchResult.found txOK) 3).db.purchases,
        p.status = TransactionStatus.confirmed →
        p ∈ (confirm_purchase
              (confirm_purchase dbNoPurchase ⟨"L1", "B", "s1"⟩ (FetchResult.found txOK) 3).db
              req fetch now).db.purchases) :=
  C9_confirmed_at_iff_confirmed _
    (Reachable.confirmStep ⟨"L1", "B", "s1"⟩ (FetchResult.found txOK) 3
      (Reachable.collab [listing1] ["B", "C"] Reachable.empty))

set_option maxRecDepth 8192

/-- C3 counterexample: at the spec's example price of 1.5 SOL, a transferred
amount of 1.500001 SOL differs from the expected amount by exactly `1e-6`
display units — a difference ≥ the epsilon — yet the verification comparison,
evaluated in the bit-exact binary64 semantics of the source
(`abs(lamports/1e9 - expected) < 0.000001` on doubles), ACCEPTS it: the
claim's "rejects … any value greater than or equal to the epsilon" fails at
this input.  (`(divDbl 3 2).toRat = 3/2`: the price 1.5 is exactly
representable, so the first conjunct is the exact display-unit difference.) -/
theorem C3_counterexample :
    |lamports_to_sol 1500001000 - (divDbl 3 2).toRat| = amountEpsilon ∧
    verify_transaction_float (FetchResult.found txOffByEps) "B" "C" (divDbl 3 2)
      = true := by
  constructor
  · rw [show divDbl 3 2 = ({ m := 6755399441055744, e := -52 } : Dbl) from by decide]
    unfold lamports_to_sol amountEpsilon Dbl.toRat
    norm_num [show Int.toNat 52 = 52 from rfl]
  · decide

/-- C3 (amended): the amount test is the IEEE binary64 evaluation of
`abs(lamports/1e9 - expected) < 0.000001`, not an exact real comparison
against `1e-6`.  At the spec's example price of 1.5 SOL: a display-unit
difference of exactly `1e-6` (1.500001 SOL) is ACCEPTED — the rounded
quotient `fl(1500001000/10^9)` undershoots the true value by more than the
epsilon literal `fl(0.000001)` undershoots `1e-6` (both undershoot; the last
two conjuncts exhibit the rounding directions) — while a difference of `1e-5`
(1.50001 SOL) is rejected.  It is not true that every difference ≥ the
epsilon is rejected: the effective acceptance boundary deviates from `1e-6`
by rounding, of order one part in `2^52`. -/
theorem C3_amended_float_boundary :
    (|lamports_to_sol 1500001000 - (divDbl 3 2).toRat| = amountEpsilon ∧
      verify_transaction_float (FetchResult.found txOffByEps) "B" "C" (divDbl 3 2)
        = true) ∧
    (|lamports_to_sol 1500010000 - (divDbl 3 2).toRat| = (1 : ℚ) / 100000 ∧
      verify_transaction_float (FetchResult.found txOffBy1e5) "B" "C" (divDbl 3 2)
        = false) ∧
    ((divDbl 1500001000 1000000000).toRat < (1500001 : ℚ) / 1000000 ∧
      (divDbl 1 1000000).toRat < amountEpsilon) := by
  refine ⟨⟨?_, by decide⟩, ⟨?_, by decide⟩, ?_, ?_⟩
  · rw [show divDbl 3 2 = ({ m := 6755399441055744, e := -52 } : Dbl) from by decide]
    unfold lamports_to_sol amountEpsilon Dbl.toRat
    norm_num [show Int.toNat 52 = 52 from rfl]
  · rw [show divDbl 3 2 = ({ m := 6755399441055744, e := -52 } : Dbl) from by decide]
    unfold lamports_to_sol Dbl.toRat
    norm_num [show Int.toNat 52 = 52 from rfl]
  · rw [show divDbl 1500001000 1000000000
        = ({ m := 6755403944655371, e := -52 } : Dbl) from by decide]
    unfold Dbl.toRat
    norm_num [show Int.toNat 52 = 52 from rfl]
  · rw [show divDbl 1 1000000 = ({ m := 4722366482869645, e := -72 } : Dbl) from by decide]
    unfold Dbl.toRat amountEpsilon
    norm_num [show Int.toNat 72 = 72 from rfl]

/-- C5 counterexample: a `confirm_purchase` call carrying the CONFIRMED
signature `"s1"` but a `listing_id` that resolves to no listing is answered
with a 404, not with the existing record: the claim fails for such calls. -/
theorem C5_counterexample :
    findPurchaseBySignature dbOwned "s1" = some purchase1 ∧
    purchase1.status = TransactionStatus.confirmed ∧
    (confirm_purchase dbOwned ⟨"LX", "B", "s1"⟩ (FetchResult.found txOK) 9).result
      = ConfirmResult.listingNotFound ∧
    ConfirmResult.listingNotFound ≠ ConfirmResult.ok purchase1 := by decide

/-- C5 (amended): provided the request's `listing_id` resolves to an existing
listing (the listing lookup precedes the signature lookup and 404s
otherwise), a `confirm_purchase` call whose signature belongs to a CONFIRMED
row returns that stored row unchanged, leaves the database untouched, and
never invokes the verifier. -/
theorem C5_amended_confirmed_signature_fast_path (db : DB) (req : PurchaseConfirm)
    (fetch : FetchResult) (now : Nat) (l : Listing) (p : Purchase)
    (hl : findListing db req.listing_id = some l)
    (hp : findPurchaseBySignature db req.transaction_signature = some p)
    (hc : p.status = TransactionStatus.confirmed) :
    confirm_purchase db req fetch now
      = { result := ConfirmResult.ok p, db := db, verifierCalled := false } := by
  simp [confirm_purchase, hl, hp, hc]

/-- C5 witness: the fast path at the concrete owned store. -/
theorem C5_amended_witness :
    confirm_purchase dbOwned ⟨"L1", "B", "s1"⟩ (FetchResult.found txOK) 9
      = { result := ConfirmResult.ok purchase1, db := dbOwned, verifierCalled := false } :=
  C5_amended_confirmed_signature_fast_path dbOwned ⟨"L1", "B", "s1"⟩
    (FetchResult.found txOK) 9 listing1 purchase1 (by decide) (by decide) (by decide)

/-- C10 counterexample: the fast path does not key on the signature alone in
full generality — when the request's `listing_id` resolves to no listing the
call 404s before the signature lookup, even though a CONFIRMED row holds the
request's signature. -/
theorem C10_counterexample :
    findPurchaseBySignature dbOwned "s1" = some purchase1 ∧
    purchase1.status = TransactionStatus.confirmed ∧
    "LY" ≠ purchase1.listing_id ∧
    (confirm_purchase dbOwned ⟨"LY", "B2", "s1"⟩ FetchResult.timeout 4).result
      = ConfirmResult.listingNotFound ∧
    ConfirmResult.listingNotFound ≠ ConfirmResult.ok purchase1 := by decide

/-- C10 (amended): provided the request's `listing_id` resolves to some
existing listing, the CONFIRMED-signature fast path keys on the transaction
signature alone: the stored row is returned unchanged even when the request's
`listing_id` and `buyer_wallet` both differ from those stored on the row — no
cross-check of the request fields against the existing record is performed. -/
theorem C10_amended_fast_path_keys_on_signature (db : DB) (req : PurchaseConfirm)
    (fetch : FetchResult) (now : Nat) (l : Listing) (p : Purchase)
    (hl : findListing db req.listing_id = some l)
    (hp : findPurchaseBySignature db req.transaction_signature = some p)
    (hc : p.status = TransactionStatus.confirmed)
    (hlid : req.listing_id ≠ p.listing_id)
    (hbw : req.buyer_wallet ≠ p.buyer_wallet) :
    confirm_purchase db req fetch now
      = { result := ConfirmResult.ok p, db := db, verifierCalled := false } := by
  simp [confirm_purchase, hl, hp, hc]

/-- C10 witness: a request naming listing `"L2"` and buyer `"B2"` is answered
with the stored row for listing `"L1"` and buyer `"B"`. -/
theorem C10_amended_witness :
    confirm_purchase dbTwoListings ⟨"L2", "B2", "s1"⟩ FetchResult.timeout 4
      = { result := ConfirmResult.ok purchase1, db := dbTwoListings, verifierCalled := false } :=
  C10_amended_fast_path_keys_on_signature dbTwoListings ⟨"L2", "B2", "s1"⟩
    FetchResult.timeout 4 listing2 purchase1 (by decide) (by decide) (by decide)
    (by decide) (by decide)

/-- C1 counterexample: with buyer `"B"` already owning `listing1` (one
CONFIRMED row), a `confirm_purchase` call for the same pair under the fresh
signature `"s2"` is NOT rejected: the verifier is invoked and a second
CONFIRMED row for the same (listing, buyer) pair is created. -/
theorem C1_counterexample :
    countConfirmedFor dbOwned "L1" "B" = 1 ∧
    (confirm_purchase dbOwned ⟨"L1", "B", "s2"⟩ (FetchResult.found txOK) 5).verifierCalled
      = true ∧
    (confirm_purchase dbOwned ⟨"L1", "B", "s2"⟩ (FetchResult.found txOK) 5).result
      ≠ ConfirmResult.verificationFailed ∧
    (confirm_purchase dbOwned ⟨"L1", "B", "s2"⟩ (FetchResult.found txOK) 5).result
      ≠ ConfirmResult.listingNotFound ∧
    countConfirmedFor
      (confirm_purchase dbOwned ⟨"L1", "B", "s2"⟩ (FetchResult.found txOK) 5).db "L1" "B"
      = 2 := by decide

/-- C1 (amended): `confirm_purchase` performs no already-owned check at all.
When the request's signature is new, the listing resolves, and the ledger
verifies the transfer, the verifier is invoked and a further CONFIRMED row is
inserted for the pair even though a CONFIRMED row for the same
(`listing_id`, `buyer_wallet`) already exists — so more than one CONFIRMED
purchase can exist per pair (the already-owned guard exists only in
`initiate_purchase`). -/
theorem C1_amended_no_owned_check_in_confirm (db : DB) (req : PurchaseConfirm)
    (fetch : FetchResult) (now : Nat) (l : Listing)
    (hl : findListing db req.listing_id = some l)
    (hs : findPurchaseBySignature db req.transaction_signature = none)
    (hv : verify_transaction fetch req.buyer_wallet l.creator_wallet l.price_sol = true)
    (howned : 1 ≤ countConfirmedFor db req.listing_id req.buyer_wallet) :
    (confirm_purchase db req fetch now).verifierCalled = true ∧
    countConfirmedFor (confirm_purchase db req fetch now).db req.listing_id req.buyer_wallet
      = countConfirmedFor db req.listing_id req.buyer_wallet + 1 ∧
    2 ≤ countConfirmedFor (confirm_purchase db req fetch now).db req.listing_id
          req.buyer_wallet := by
  have h1 : (confirm_purchase db req fetch now).verifierCalled = true := by
    simp [confirm_purchase, confirmVerify, hl, hs, hv]
  have h2 : countConfirmedFor (confirm_purchase db req fetch now).db req.listing_id
      req.buyer_wallet = countConfirmedFor db req.listing_id req.buyer_wallet + 1 := by
    simp [confirm_purchase, confirmVerify, hl, hs, hv, countConfirmedFor]
  exact ⟨h1, h2, by omega⟩

/-- C1 witness: the amended behaviour at the concrete owned store. -/
theorem C1_amended_witness :
    (confirm_purchase dbOwned ⟨"L1", "B", "s2"⟩ (FetchResult.found txOK) 5).verifierCalled
      = true ∧
    countConfirmedFor
        (confirm_purchase dbOwned ⟨"L1", "B", "s2"⟩ (FetchResult.found txOK) 5).db "L1" "B"
      = countConfirmedFor dbOwned "L1" "B" + 1 ∧
    2 ≤ countConfirmedFor
        (confirm_purchase dbOwned ⟨"L1", "B", "s2"⟩ (FetchResult.found txOK) 5).db "L1" "B" :=
  C1_amended_no_owned_check_in_confirm dbOwned ⟨"L1", "B", "s2"⟩ (FetchResult.found txOK) 5
    listing1 (by decide) (by decide) (by decide) (by decide)

/-- C2 counterexample: when the ledger lookup times out and no row exists for
the signature, `confirm_purchase` answers with the 400 verification-failure
rejection and creates NO pending row at all — the timeout is swallowed inside
`verify_transaction` (which returns `False`), not surfaced as a retriable
error. -/
theorem C2_counterexample :
    confirm_purchase dbNoPurchase ⟨"L1", "B", "s1"⟩ FetchResult.timeout 7
      = { result := ConfirmResult.verificationFailed, db := dbNoPurchase,
          verifierCalled := true } ∧
    findPurchaseBySignature dbNoPurchase "s1" = none := by decide

/-- C2 (amended): a ledger timeout during confirmation is reported as a 400
verification failure (never as a retriable error) and the database is left
unchanged, so an existing PENDING row merely stays PENDING and no new row is
created; a second call with the same signature, once the ledger answers with
a matching transaction, flips the PENDING row to CONFIRMED in place without
creating a duplicate. -/
theorem C2_amended_timeout_rejected_retry_completes (db : DB) (req : PurchaseConfirm)
    (now : Nat) (l : Listing) (p : Purchase)
    (hl : findListing db req.listing_id = some l)
    (hp : findPurchaseBySignature db req.transaction_signature = some p)
    (hst : p.status = TransactionStatus.pending) :
    ((confirm_purchase db req FetchResult.timeout now).result
        = ConfirmResult.verificationFailed ∧
      (confirm_purchase db req FetchResult.timeout now).db = db) ∧
    (∀ fetch, verify_transaction fetch req.buyer_wallet l.creator_wallet l.price_sol = true →
      (confirm_purchase db req fetch now).result = ConfirmResult.ok (setConfirmedAt now p) ∧
      (confirm_purchase db req fetch now).db.purchases.length = db.purchases.length) := by
  constructor
  · constructor <;> simp [confirm_purchase, confirmVerify, hl, hp, hst, verify_transaction]
  · intro fetch hv
    constructor
    · simp [confirm_purchase, confirmVerify, hl, hp, hst, hv]
    · simp [confirm_purchase, confirmVerify, hl, hp, hst, hv, updateBySig_length]

/-- C2 witness: the amended behaviour at the concrete store holding a PENDING
row for `"s1"`. -/
theorem C2_amended_witness :
    ((confirm_purchase dbPending ⟨"L1", "B", "s1"⟩ FetchResult.timeout 7).result
        = ConfirmResult.verificationFailed ∧
      (confirm_purchase dbPending ⟨"L1", "B", "s1"⟩ FetchResult.timeout 7).db = dbPending) ∧
    (∀ fetch, verify_transaction fetch "B" listing1.creator_wallet listing1.price_sol = true →
      (confirm_purchase dbPending ⟨"L1", "B", "s1"⟩ fetch 7).result
          = ConfirmResult.ok (setConfirmedAt 7 pendingPurchase1) ∧
      (confirm_purchase dbPending ⟨"L1", "B", "s1"⟩ fetch 7).db.purchases.length
          = dbPending.purchases.length) :=
  C2_amended_timeout_rejected_retry_completes dbPending ⟨"L1", "B", "s1"⟩ 7
    listing1 pendingPurchase1 (by decide) (by decide) (by decide)

/-- C4 counterexample: a ledger rejection (execution-error field set) leaves
the PENDING row PENDING and returns a 400 — the row does not transition to
FAILED; `confirm_purchase` never writes the FAILED status at all. -/
theorem C4_counterexample :
    txErr.err.isSome = true ∧
    (confirm_purchase dbPending ⟨"L1", "B", "s1"⟩ (FetchResult.found txErr) 9).result
      = ConfirmResult.verificationFailed ∧
    (confirm_purchase dbPending ⟨"L1", "B", "s1"⟩ (FetchResult.found txErr) 9).db
      = dbPending ∧
    dbPending.purchases = [pendingPurchase1] ∧
    pendingPurchase1.status = TransactionStatus.pending ∧
    pendingPurchase1.status ≠ TransactionStatus.failed := by decide

/-- C4 (amended): whenever verification rejects (on-chain error or no
matching transfer), `confirm_purchase` returns the 400 verification failure
and leaves the database completely unchanged: the row for the signature, if
any, keeps its prior status, and no row ever becomes FAILED. -/
theorem C4_amended_rejection_leaves_state_unchanged (db : DB) (req : PurchaseConfirm)
    (fetch : FetchResult) (now : Nat) (l : Listing)
    (hl : findListing db req.listing_id = some l)
    (hnc : findPurchaseBySignature db req.transaction_signature = none ∨
      ∃ p, findPurchaseBySignature db req.transaction_signature = some p ∧
        p.status ≠ TransactionStatus.confirmed)
    (hv : verify_transaction fetch req.buyer_wallet l.creator_wallet l.price_sol = false) :
    (confirm_purchase db req fetch now).result = ConfirmResult.verificationFailed ∧
    (confirm_purchase db req fetch now).db = db := by
  rcases hnc with hp | ⟨p, hp, hpns⟩
  · constructor <;> simp [confirm_purchase, confirmVerify, hl, hp, hv]
  · constructor <;> simp [confirm_purchase, confirmVerify, hl, hp, hpns, hv]

/-- C4 witness: the amended behaviour at the concrete store holding a PENDING
row, on a transaction that executed with an on-chain error. -/
theorem C4_amended_witness :
    (confirm_purchase dbPending ⟨"L1", "B", "s1"⟩ (FetchResult.found txErr) 9).result
      = ConfirmResult.verificationFailed ∧
    (confirm_purchase dbPending ⟨"L1", "B", "s1"⟩ (FetchResult.found txErr) 9).db
      = dbPending :=
  C4_amended_rejection_leaves_state_unchanged dbPending ⟨"L1", "B", "s1"⟩
    (FetchResult.found txErr) 9 listing1 (by decide)
    (Or.inr ⟨pendingPurchase1, by decide, by decide⟩) (by decide)

/-- C6 counterexample: `initiate` quotes the price 2 SOL, the price is then
changed to 3 SOL, and `confirm` verifies against the NEW price: paying the
initiation-time amount of 2 SOL is rejected, while paying 3 SOL confirms with
a recorded amount of 3 SOL ≠ the initiation-time price. -/
theorem C6_counterexample :
    (initiate_purchase dbInit ⟨"L6", validBuyer⟩ (some ("bh", 100))).result
      = InitResult.ok "C" (mkRat 2 1) ∧
    (confirm_purchase dbChanged ⟨"L6", validBuyer, "s6"⟩ (FetchResult.found txPays2) 8).result
      = ConfirmResult.verificationFailed ∧
    resultAmount
      (confirm_purchase dbChanged ⟨"L6", validBuyer, "s6"⟩ (FetchResult.found txPays3) 8).result
      = some (mkRat 3 1) ∧
    mkRat 3 1 ≠ mkRat 2 1 := by decide

/-- C6 (amended): `initiate` returns the listing's price as stored at
initiation time, but `confirm` verifies against — and records — the listing's
price as stored at confirmation time; the recorded amount equals the
initiation-time price only when the price is unchanged in between. -/
theorem C6_amended_price_read_at_confirmation :
    (∀ (db : DB) (req : PurchaseCreate) (bh : String × Nat) (l : Listing),
        is_valid_solana_address req.buyer_wallet = true →
        findActiveListing db req.listing_id = some l →
        existsConfirmedPurchase db req.listing_id req.buyer_wallet = false →
        (initiate_purchase db req (some bh)).result
          = InitResult.ok l.creator_wallet l.price_sol) ∧
    (∀ (db : DB) (req : PurchaseConfirm) (fetch : FetchResult) (now : Nat) (l : Listing),
        findListing db req.listing_id = some l →
        findPurchaseBySignature db req.transaction_signature = none →
        verify_transaction fetch req.buyer_wallet l.creator_wallet l.price_sol = true →
        ∃ p, (confirm_purchase db req fetch now).result = ConfirmResult.ok p ∧
          p.amount_sol = l.price_sol ∧ p.status = TransactionStatus.confirmed ∧
          p.confirmed_at = some now) := by
  constructor
  · intro db req bh l hvalid hfl hnone
    by_cases h3 : req.buyer_wallet ∈ db.users <;>
      simp [initiate_purchase, hvalid, hfl, hnone, h3]
  · intro db req fetch now l hl hs hv
    refine ⟨{ id := db.purchases.length, listing_id := req.listing_id,
              buyer_wallet := req.buyer_wallet,
              transaction_signature := req.transaction_signature,
              amount_sol := l.price_sol, status := TransactionStatus.confirmed,
              purchased_at := now, confirmed_at := some now }, ?_, rfl, rfl, rfl⟩
    simp [confirm_purchase, confirmVerify, hl, hs, hv]

/-- C6 witness: both halves of the amended claim at the concrete stores of the
counterexample scenario. -/
theorem C6_amended_witness :
    (initiate_purchase dbInit ⟨"L6", validBuyer⟩ (some ("bh", 100))).result
      = InitResult.ok listing6.creator_wallet listing6.price_sol ∧
    ∃ p, (confirm_purchase dbChanged ⟨"L6", validBuyer, "s6"⟩
            (FetchResult.found txPays3) 8).result = ConfirmResult.ok p ∧
      p.amount_sol = (mkRat 3 1) ∧ p.status = TransactionStatus.confirmed ∧
      p.confirmed_at = some 8 :=
  ⟨C6_amended_price_read_at_confirmation.1 dbInit ⟨"L6", validBuyer⟩ ("bh", 100) listing6
      (by decide) (by decide) (by decide),
    C6_amended_price_read_at_confirmation.2 dbChanged ⟨"L6", validBuyer, "s6"⟩
      (FetchResult.found txPays3) 8 { listing6 with price_sol := mkRat 3 1 }
      (by decide) (by decide) (by decide)⟩

/-- C7 counterexample: a `confirm_purchase` call for the FAILED signature
`"s1"` re-runs verification (the verifier is invoked) and, the ledger now
verifying the transfer, transitions the FAILED row to CONFIRMED — no new
signature is required. -/
theorem C7_counterexample :
    failedPurchase1.status = TransactionStatus.failed ∧
    (confirm_purchase dbFailed ⟨"L1", "B", "s1"⟩ (FetchResult.found txOK) 11).verifierCalled
      = true ∧
    (confirm_purchase dbFailed ⟨"L1", "B", "s1"⟩ (FetchResult.found txOK) 11).result
      = ConfirmResult.ok (setConfirmedAt 11 failedPurchase1) ∧
    (setConfirmedAt 11 failedPurchase1).status = TransactionStatus.confirmed := by decide

/-- C7 (amended): a FAILED row is NOT short-circuited: the `if`/`elif` chain
of `confirm_purchase` handles only CONFIRMED and PENDING, so a FAILED row
falls through to re-verification, and when the ledger verifies the transfer
the row transitions to CONFIRMED under the same signature. -/
theorem C7_amended_failed_signature_reverified (db : DB) (req : PurchaseConfirm)
    (fetch : FetchResult) (now : Nat) (l : Listing) (p : Purchase)
    (hl : findListing db req.listing_id = some l)
    (hp : findPurchaseBySignature db req.transaction_signature = some p)
    (hf : p.status = TransactionStatus.failed) :
    (confirm_purchase db req fetch now).verifierCalled = true ∧
    (verify_transaction fetch req.buyer_wallet l.creator_wallet l.price_sol = true →
      (confirm_purchase db req fetch now).result
        = ConfirmResult.ok (setConfirmedAt now p)) := by
  have hnc : ¬ p.status = TransactionStatus.confirmed := by simp [hf]
  constructor
  · by_cases hv : verify_transaction fetch req.buyer_wallet l.creator_wallet
        l.price_sol = true
    · simp [confirm_purchase, confirmVerify, hl, hp, hnc, hv]
    · simp only [Bool.not_eq_true] at hv
      simp [confirm_purchase, confirmVerify, hl, hp, hnc, hv]
  · intro hv
    simp [confirm_purchase, confirmVerify, hl, hp, hnc, hv]

/-- C7 witness: the amended behaviour at the concrete store holding a FAILED
row for `"s1"`. -/
theorem C7_amended_witness :
    (confirm_purchase dbFailed ⟨"L1", "B", "s1"⟩ (FetchResult.found txOK) 11).verifierCalled
      = true ∧
    (verify_transaction (FetchResult.found txOK) "B" listing1.creator_wallet
        listing1.price_sol = true →
      (confirm_purchase dbFailed ⟨"L1", "B", "s1"⟩ (FetchResult.found txOK) 11).result
        = ConfirmResult.ok (setConfirmedAt 11 failedPurchase1)) :=
  C7_amended_failed_signature_reverified dbFailed ⟨"L1", "B", "s1"⟩
    (FetchResult.found txOK) 11 listing1 failedPurchase1 (by decide) (by decide) (by decide)

end PhotoPay
